import Mathlib

/-!
# Verification of the unified-risk-monitor risk-scoring engine

Shallow embedding of `src/backend/risk_scoring.py` (class `RiskScoringEngine`)
together with the storage collaborator it drives (`models.py`: `Customer`,
`Transaction`, `RiskScore`; the SQLAlchemy session used by
`calculate_risk_scores` / `_store_risk_scores`).

Modelling conventions:
* Python floats are modelled by exact rationals `ℚ`.
* `math.sqrt` is an explicit function parameter `sq : ℚ → ℚ` of the
  credit-side definitions; theorems assume only what is true of the real
  square root on nonnegative inputs (nonnegativity).  Witnesses instantiate
  it with `ratSqrt`, which agrees with the exact square root on rationals
  that are squares (the only inputs the witnesses use it on).
* Python's float `%` (sign follows the divisor) is `pyMod`.
* `datetime` bookkeeping is reduced to the quantities the engine reads:
  `(utcnow() - customer.created_at).days` becomes `Customer.ageDays : ℤ`,
  `t.timestamp.hour` becomes `Transaction.hour : ℕ`, and the 90-day window
  predicate `timestamp >= cutoff_date` becomes `daysAgo ≤ 90`.
* The SQLAlchemy session is modelled explicitly: attribute assignments on a
  loaded `Customer` and `db.add` of new `RiskScore` rows are *pending* until
  `db.commit()` applies them to the persistent state; `db.rollback()`
  discards all pending changes.  Explanation strings and the JSON factor
  payloads stored on records are elided (no claim depends on them).
-/

namespace RiskMonitor

/-- `models.py` `Transaction`, restricted to the fields the scoring engine
reads.  `daysAgo` is the (whole-day) age of `timestamp` relative to the run's
`utcnow()`; `hour` is `timestamp.hour`. -/
structure Transaction where
  customer_id : String
  amount : ℚ
  merchant : String
  hour : ℕ
  daysAgo : ℕ
  is_offshore : Bool
  is_cash_equivalent : Bool
deriving DecidableEq

/-- `models.py` `Customer`, restricted to the fields the scoring engine reads
and writes.  `ageDays` is `(datetime.utcnow() - customer.created_at).days` at
scoring time; `updatedAt` is an abstract timestamp for `updated_at`. -/
structure Customer where
  id : String
  ageDays : ℤ
  credit_score : ℚ
  aml_score : ℚ
  combined_risk_score : ℚ
  risk_level : String
  updatedAt : ℤ
deriving DecidableEq

/-- `models.py` `RiskScore` (the append-only audit row), restricted to the
fields set by `_store_risk_scores` that any claim mentions. -/
structure RiskScore where
  customer_id : String
  score_type : String
  score_value : ℚ
  confidence : ℚ
deriving DecidableEq

/-- The persistent storage state: customers, transactions, risk-score rows. -/
structure DB where
  customers : List Customer
  transactions : List Transaction
  riskScores : List RiskScore
deriving DecidableEq

/-- Python float `a % b` for `b > 0`: remainder whose sign follows the
divisor, `a - b * floor (a / b)`. -/
def pyMod (a b : ℚ) : ℚ := a - b * ⌊a / b⌋

/-- `0 ≤ x ≤ 1`, the spec's normalization invariant for factors and scores. -/
def inUnit (x : ℚ) : Prop := 0 ≤ x ∧ x ≤ 1

instance (x : ℚ) : Decidable (inUnit x) := by unfold inUnit; infer_instance

/-! ## Credit dimension (`_calculate_credit_risk`) -/

/-- `factors["payment_history"] = 0.2` — hard-coded constant. -/
def credit_payment_history : ℚ := 0.2

/-- `sum(t.amount for t in transactions)`. -/
def totalAmount (ts : List Transaction) : ℚ := (ts.map (fun t => t.amount)).sum

/-- `factors["credit_utilization"]`:
`avg_monthly_amount = total / 3`, `credit_limit = 10000`,
`utilization = min(avg_monthly_amount / credit_limit, 1.0)`. -/
def credit_utilization (ts : List Transaction) : ℚ :=
  min (totalAmount ts / 3 / 10000) 1

/-- `factors["account_age"] = max(0, 1 - account_age_days / 365)`. -/
def account_age (ageDays : ℤ) : ℚ := max 0 (1 - (ageDays : ℚ) / 365)

/-- `factors["transaction_frequency"] = min(len(transactions) / 30, 1.0)`. -/
def transaction_frequency (ts : List Transaction) : ℚ :=
  min ((ts.length : ℚ) / 30) 1

/-- `mean_amount = sum(amounts) / len(amounts)`. -/
def meanAmount (ts : List Transaction) : ℚ := totalAmount ts / (ts.length : ℚ)

/-- `variance = sum((x - mean_amount) ** 2 for x in amounts) / len(amounts)`
— the population variance of the windowed amounts. -/
def varianceAmount (ts : List Transaction) : ℚ :=
  ((ts.map (fun t => (t.amount - meanAmount ts) ^ 2)).sum) / (ts.length : ℚ)

/-- `factors["amount_consistency"]`: for more than one record,
`cv = std_dev / mean_amount if mean_amount > 0 else 1` and the factor is
`min(cv, 1.0)`; otherwise `0.5`.  `sq` stands for `math.sqrt`. -/
def amount_consistency (sq : ℚ → ℚ) (ts : List Transaction) : ℚ :=
  if 1 < ts.length then
    min (if 0 < meanAmount ts then sq (varianceAmount ts) / meanAmount ts else 1) 1
  else 0.5

/-- The credit dimension score: `min(Σ factors[f] * credit_weights[f], 1.0)`
with the fixed weight table `{payment_history: .35, credit_utilization: .30,
account_age: .15, transaction_frequency: .10, amount_consistency: .10}`. -/
def credit_score (sq : ℚ → ℚ) (ageDays : ℤ) (ts : List Transaction) : ℚ :=
  min (credit_payment_history * 0.35 + credit_utilization ts * 0.30 +
       account_age ageDays * 0.15 + transaction_frequency ts * 0.10 +
       amount_consistency sq ts * 0.10) 1

/-! ## AML dimension (`_calculate_aml_risk`) -/

/-- The hard-coded merchant denylist `high_risk_merchants`. -/
def highRiskMerchants : List String :=
  ["Offshore Trading Co", "Crypto Exchange", "Casino Royale"]

/-- `factors["structuring_patterns"] = min(count(900 <= amount <= 999) / 10, 1.0)`. -/
def structuring_patterns (ts : List Transaction) : ℚ :=
  min ((ts.countP (fun t => decide (900 ≤ t.amount ∧ t.amount ≤ 999)) : ℚ) / 10) 1

/-- `factors["high_risk_merchants"] = min(count(merchant in denylist) / 5, 1.0)`. -/
def high_risk_merchants (ts : List Transaction) : ℚ :=
  min ((ts.countP (fun t => highRiskMerchants.contains t.merchant) : ℚ) / 5) 1

/-- `factors["offshore_transactions"] = min(count(is_offshore) / 3, 1.0)`. -/
def offshore_transactions (ts : List Transaction) : ℚ :=
  min ((ts.countP (fun t => t.is_offshore) : ℚ) / 3) 1

/-- `factors["cash_equivalents"] = min(count(is_cash_equivalent) / 5, 1.0)`. -/
def cash_equivalents (ts : List Transaction) : ℚ :=
  min ((ts.countP (fun t => t.is_cash_equivalent) : ℚ) / 5) 1

/-- `factors["amount_frequency"] = min(count(amount % 1000 == 0 and amount > 1000) / 5, 1.0)`. -/
def amount_frequency (ts : List Transaction) : ℚ :=
  min ((ts.countP (fun t => decide (pyMod t.amount 1000 = 0 ∧ 1000 < t.amount)) : ℚ) / 5) 1

/-- `factors["time_patterns"] = min(count(hour < 6 or hour > 22) / 10, 1.0)`. -/
def time_patterns (ts : List Transaction) : ℚ :=
  min ((ts.countP (fun t => decide (t.hour < 6 ∨ 22 < t.hour)) : ℚ) / 10) 1

/-- The AML dimension score: `min(Σ factors[f] * aml_weights[f], 1.0)` with
the fixed weight table `{structuring_patterns: .25, high_risk_merchants: .20,
offshore_transactions: .20, cash_equivalents: .15, amount_frequency: .10,
time_patterns: .10}`. -/
def aml_score (ts : List Transaction) : ℚ :=
  min (structuring_patterns ts * 0.25 + high_risk_merchants ts * 0.20 +
       offshore_transactions ts * 0.20 + cash_equivalents ts * 0.15 +
       amount_frequency ts * 0.10 + time_patterns ts * 0.10) 1

/-! ## Combination and classification -/

/-- `_calculate_combined_risk`:
`min(credit_score * 0.4 + aml_score * 0.6, 1.0)`. -/
def combined_score (credit aml : ℚ) : ℚ := min (credit * 0.4 + aml * 0.6) 1

/-- `_determine_risk_level`: top-down threshold classification. -/
def _determine_risk_level (score : ℚ) : String :=
  if score ≥ 0.8 then "CRITICAL"
  else if score ≥ 0.6 then "HIGH"
  else if score ≥ 0.4 then "MEDIUM"
  else "LOW"

/-- Severity rank of a band name, per the order LOW < MEDIUM < HIGH < CRITICAL. -/
def riskLevelRank (level : String) : ℕ :=
  if level = "CRITICAL" then 3
  else if level = "HIGH" then 2
  else if level = "MEDIUM" then 1
  else 0

/-- Computable stand-in for `math.sqrt`, used only by concrete witnesses: the
exact square root on rationals that are squares of rationals, `0` elsewhere
(witnesses apply it only to squares). -/
def ratSqrt (x : ℚ) : ℚ :=
  if (Nat.sqrt x.num.toNat : ℤ) ^ 2 = x.num ∧ (Nat.sqrt x.den : ℕ) ^ 2 = x.den
  then (Nat.sqrt x.num.toNat : ℚ) / (Nat.sqrt x.den : ℚ) else 0

/-! ## The scoring run (`calculate_risk_scores` / `_store_risk_scores`)

The run drives a SQLAlchemy session.  Attribute assignments on the loaded
`Customer` (lines 65–69) and the three `db.add` calls are *pending* changes;
`db.commit()` applies them all to the persistent database as one DB
transaction, and `db.rollback()` (invoked in the `except` branch of
`_store_risk_scores` before re-raising) discards every pending change.  The
possibility that the commit fails is an environment choice, modelled by the
boolean `commitOk`; a raised (and re-raised) exception is modelled as a
`some RunError` outcome alongside the final session. -/

/-- Exception outcome of a scoring run: the only raise path inside the engine
is a failed `db.commit()` in `_store_risk_scores`, re-raised after rollback. -/
inductive RunError
  | storageFailure
deriving DecidableEq

/-- A SQLAlchemy session over the persistent `db`: at most one pending
customer attribute-update (the engine only mutates the one loaded customer)
and the pending `db.add`ed rows, applied only on commit. -/
structure Session where
  db : DB
  custUpdate : Option Customer
  newRecords : List RiskScore
deriving DecidableEq

/-- `db.rollback()`: discard all pending changes, keep the persistent state. -/
def Session.rollback (s : Session) : Session :=
  { s with custUpdate := none, newRecords := [] }

/-- Replace the row of the customer with `c.id` by `c`. -/
def applyUpdate (cs : List Customer) (c : Customer) : List Customer :=
  cs.map (fun c0 => if c0.id = c.id then c else c0)

/-- `db.commit()` succeeding: apply the pending customer update and append
the pending rows to the append-only `risk_scores` table. -/
def Session.commitApply (s : Session) : DB :=
  { customers :=
      match s.custUpdate with
      | none => s.db.customers
      | some c => applyUpdate s.db.customers c
    transactions := s.db.transactions
    riskScores := s.db.riskScores ++ s.newRecords }

/-- `_store_risk_scores`: `db.add` the CREDIT, AML and COMBINED `RiskScore`
rows (confidences 0.85, 0.90 and their mean), then `db.commit()`; on commit
failure, `db.rollback()` and re-raise. -/
def _store_risk_scores (cid : String) (creditS amlS combS : ℚ)
    (s : Session) (commitOk : Bool) : Session × Option RunError :=
  let s1 : Session :=
    { s with newRecords := s.newRecords ++
        [⟨cid, "CREDIT", creditS, 0.85⟩,
         ⟨cid, "AML", amlS, 0.90⟩,
         ⟨cid, "COMBINED", combS, (0.85 + 0.90) / 2⟩] }
  if commitOk then
    ({ db := s1.commitApply, custUpdate := none, newRecords := [] }, none)
  else (s1.rollback, some .storageFailure)

/-- The 90-day window query:
`Transaction.customer_id == customer_id, Transaction.timestamp >= cutoff_date`. -/
def windowedTransactions (db : DB) (cid : String) : List Transaction :=
  db.transactions.filter (fun t => t.customer_id == cid && decide (t.daysAgo ≤ 90))

/-- `calculate_risk_scores`: look up the customer (when absent, log and
return normally — no exception), compute the three scores over the windowed
transactions, set the customer's current fields in the session, then store
the three rows via `_store_risk_scores`. -/
def calculate_risk_scores (sq : ℚ → ℚ) (db : DB) (cid : String) (now : ℤ)
    (commitOk : Bool) : Session × Option RunError :=
  match db.customers.find? (fun c => c.id == cid) with
  | none => ({ db := db, custUpdate := none, newRecords := [] }, none)
  | some cust =>
    let ts := windowedTransactions db cid
    let cs := credit_score sq cust.ageDays ts
    let am := aml_score ts
    let comb := combined_score cs am
    let cust' : Customer :=
      { cust with credit_score := cs, aml_score := am,
                  combined_risk_score := comb,
                  risk_level := _determine_risk_level comb, updatedAt := now }
    _store_risk_scores cid cs am comb
      { db := db, custUpdate := some cust', newRecords := [] } commitOk

/-! ## Statement abbreviations and concrete inputs used by witnesses -/

/-- The spec's normalization invariant instantiated to every factor and every
dimension/combined score the engine produces on one input. -/
def engineOutputsInUnit (sq : ℚ → ℚ) (d : ℤ) (ts : List Transaction) : Prop :=
  inUnit credit_payment_history ∧ inUnit (credit_utilization ts) ∧
  inUnit (account_age d) ∧ inUnit (transaction_frequency ts) ∧
  inUnit (amount_consistency sq ts) ∧
  inUnit (structuring_patterns ts) ∧ inUnit (high_risk_merchants ts) ∧
  inUnit (offshore_transactions ts) ∧ inUnit (cash_equivalents ts) ∧
  inUnit (amount_frequency ts) ∧ inUnit (time_patterns ts) ∧
  inUnit (credit_score sq d ts) ∧ inUnit (aml_score ts) ∧
  inUnit (combined_score (credit_score sq d ts) (aml_score ts))

/-- Deterministic baseline the engine produces on an empty activity window:
zero utilization, all-zero AML factors and AML score, and a LOW band. -/
def emptyWindowBaseline (sq : ℚ → ℚ) (d : ℤ) : Prop :=
  credit_utilization [] = 0 ∧
  structuring_patterns [] = 0 ∧ high_risk_merchants [] = 0 ∧
  offshore_transactions [] = 0 ∧ cash_equivalents [] = 0 ∧
  amount_frequency [] = 0 ∧ time_patterns [] = 0 ∧
  aml_score [] = 0 ∧
  _determine_risk_level (combined_score (credit_score sq d []) (aml_score [])) = "LOW"

/-- The factor values and score equation of the spec's three-transaction AML
scenario (amounts 950/950/5000, one denylisted merchant, one offshore). -/
def amlScenario (l : List Transaction) : Prop :=
  structuring_patterns l = 0.2 ∧
  high_risk_merchants l = 0.2 ∧
  offshore_transactions l = 1/3 ∧
  aml_score l =
    structuring_patterns l * 0.25 + high_risk_merchants l * 0.20 +
    offshore_transactions l * 0.20 + cash_equivalents l * 0.15 +
    amount_frequency l * 0.10 + time_patterns l * 0.10

/-- A plain daytime transaction with the given amount at a low-risk merchant. -/
def consTx (q : ℚ) : Transaction := ⟨"c", q, "Acme", 12, 1, false, false⟩

/-- A benign transaction with a positive amount. -/
def okTx : Transaction := ⟨"c", 950, "Acme", 12, 1, false, false⟩

/-- A transaction with a negative amount (e.g. a refund/chargeback). -/
def negTx : Transaction := ⟨"c", -30000, "Acme", 12, 1, false, false⟩

/-- A transaction with a large negative amount, driving the credit score
itself below zero. -/
def cxTx4 : Transaction := ⟨"c", -300000, "Acme", 12, 1, false, false⟩

/-- A stored customer used by concrete run witnesses. -/
def demoCustomer : Customer := ⟨"alice", 400, 0, 0, 0, "LOW", 0⟩

/-- A database holding `demoCustomer` and one of their transactions. -/
def demoDB : DB :=
  ⟨[demoCustomer], [⟨"alice", 950, "Acme", 12, 1, false, false⟩], []⟩

/-- A database with no customers at all. -/
def dbNoCustomers : DB := ⟨[], [], []⟩

/-- Scenario transaction: 950 at a denylisted merchant. -/
def w1 : Transaction := ⟨"c", 950, "Crypto Exchange", 12, 1, false, false⟩

/-- Scenario transaction: 950, offshore. -/
def w2 : Transaction := ⟨"c", 950, "Corner Shop", 12, 1, true, false⟩

/-- Scenario transaction: 5000 at an ordinary merchant. -/
def w3 : Transaction := ⟨"c", 5000, "Grocer", 12, 1, false, false⟩

/-! ## Helper lemmas -/

/-- `ratSqrt` is nonnegative everywhere, like `math.sqrt` on valid inputs. -/
lemma ratSqrt_nonneg (x : ℚ) : 0 ≤ ratSqrt x := by
  unfold ratSqrt; split <;> positivity

/-- Every clamped count ratio `min (n / k) 1` with `n : ℕ`, `k > 0` is in `[0,1]`. -/
lemma countFactor_inUnit (n : ℕ) (k : ℚ) (hk : 0 < k) : inUnit (min ((n : ℚ) / k) 1) :=
  ⟨le_min (by positivity) zero_le_one, min_le_right _ _⟩

lemma structuring_patterns_inUnit (ts : List Transaction) :
    inUnit (structuring_patterns ts) := countFactor_inUnit _ _ (by norm_num)

lemma high_risk_merchants_inUnit (ts : List Transaction) :
    inUnit (high_risk_merchants ts) := countFactor_inUnit _ _ (by norm_num)

lemma offshore_transactions_inUnit (ts : List Transaction) :
    inUnit (offshore_transactions ts) := countFactor_inUnit _ _ (by norm_num)

lemma cash_equivalents_inUnit (ts : List Transaction) :
    inUnit (cash_equivalents ts) := countFactor_inUnit _ _ (by norm_num)

lemma amount_frequency_inUnit (ts : List Transaction) :
    inUnit (amount_frequency ts) := countFactor_inUnit _ _ (by norm_num)

lemma time_patterns_inUnit (ts : List Transaction) :
    inUnit (time_patterns ts) := countFactor_inUnit _ _ (by norm_num)

lemma transaction_frequency_inUnit (ts : List Transaction) :
    inUnit (transaction_frequency ts) := countFactor_inUnit _ _ (by norm_num)

/-- `account_age` is in `[0,1]` whenever the account age is nonnegative
(i.e. `created_at` is not in the future). -/
lemma account_age_inUnit (d : ℤ) (hd : 0 ≤ d) : inUnit (account_age d) := by
  unfold account_age inUnit
  refine ⟨le_max_left _ _, max_le (by norm_num) ?_⟩
  have h : (0:ℚ) ≤ (d:ℚ) / 365 := div_nonneg (by exact_mod_cast hd) (by norm_num)
  linarith

/-- `credit_utilization` is in `[0,1]` whenever all windowed amounts are
nonnegative (the code clamps it from above only). -/
lemma credit_utilization_inUnit (ts : List Transaction)
    (ha : ∀ t ∈ ts, 0 ≤ t.amount) : inUnit (credit_utilization ts) := by
  have h0 : 0 ≤ totalAmount ts := by
    refine List.sum_nonneg ?_
    intro x hx
    obtain ⟨t, ht, rfl⟩ := List.mem_map.mp hx
    exact ha t ht
  exact ⟨le_min (div_nonneg (div_nonneg h0 (by norm_num)) (by norm_num)) zero_le_one,
    min_le_right _ _⟩

/-- `amount_consistency` is in `[0,1]` as long as the square root of the
variance is nonnegative (true of `math.sqrt`). -/
lemma amount_consistency_inUnit (sq : ℚ → ℚ) (ts : List Transaction)
    (hsq : 0 ≤ sq (varianceAmount ts)) : inUnit (amount_consistency sq ts) := by
  unfold amount_consistency
  split
  · refine ⟨le_min ?_ zero_le_one, min_le_right _ _⟩
    split
    · exact div_nonneg hsq (le_of_lt (by assumption))
    · norm_num
  · norm_num [inUnit]

/-- The credit score is in `[0,1]` under the same provisos as its factors. -/
lemma credit_score_inUnit (sq : ℚ → ℚ) (d : ℤ) (ts : List Transaction)
    (hsq : 0 ≤ sq (varianceAmount ts)) (hd : 0 ≤ d)
    (ha : ∀ t ∈ ts, 0 ≤ t.amount) : inUnit (credit_score sq d ts) := by
  obtain ⟨u0, u1⟩ := credit_utilization_inUnit ts ha
  obtain ⟨a0, a1⟩ := account_age_inUnit d hd
  obtain ⟨f0, f1⟩ := transaction_frequency_inUnit ts
  obtain ⟨c0, c1⟩ := amount_consistency_inUnit sq ts hsq
  unfold credit_score credit_payment_history
  exact ⟨le_min (by linarith) zero_le_one, min_le_right _ _⟩

/-- The AML score is in `[0,1]` unconditionally: every AML factor is a
clamped nonnegative count ratio. -/
lemma aml_score_inUnit (ts : List Transaction) : inUnit (aml_score ts) := by
  obtain ⟨a0, a1⟩ := structuring_patterns_inUnit ts
  obtain ⟨b0, b1⟩ := high_risk_merchants_inUnit ts
  obtain ⟨c0, c1⟩ := offshore_transactions_inUnit ts
  obtain ⟨d0, d1⟩ := cash_equivalents_inUnit ts
  obtain ⟨e0, e1⟩ := amount_frequency_inUnit ts
  obtain ⟨f0, f1⟩ := time_patterns_inUnit ts
  unfold aml_score
  exact ⟨le_min (by linarith) zero_le_one, min_le_right _ _⟩

/-- The combined score is in `[0,1]` when both dimension scores are nonnegative. -/
lemma combined_score_inUnit (c a : ℚ) (hc : 0 ≤ c) (ha : 0 ≤ a) :
    inUnit (combined_score c a) := by
  unfold combined_score
  exact ⟨le_min (by linarith) zero_le_one, min_le_right _ _⟩

/-! ## Claims -/

/-- Claim C1 (amended): whenever every windowed amount is nonnegative, the
entity's account age in days is nonnegative, and the square-root function is
nonnegative (as `math.sqrt` is), every factor value produced by credit and
AML factor extraction and every dimension score and the combined score lies
in `[0,1]`.  (The original claim, quantifying over negative amounts as well,
fails: see the counterexample.) -/
theorem claim_C1_all_outputs_in_unit_interval (sq : ℚ → ℚ) (d : ℤ)
    (ts : List Transaction) (hsq : ∀ x, 0 ≤ sq x) (hd : 0 ≤ d)
    (ha : ∀ t ∈ ts, 0 ≤ t.amount) :
    engineOutputsInUnit sq d ts :=
  ⟨by norm_num [inUnit, credit_payment_history],
   credit_utilization_inUnit ts ha, account_age_inUnit d hd,
   transaction_frequency_inUnit ts, amount_consistency_inUnit sq ts (hsq _),
   structuring_patterns_inUnit ts, high_risk_merchants_inUnit ts,
   offshore_transactions_inUnit ts, cash_equivalents_inUnit ts,
   amount_frequency_inUnit ts, time_patterns_inUnit ts,
   credit_score_inUnit sq d ts (hsq _) hd ha, aml_score_inUnit ts,
   combined_score_inUnit _ _ (credit_score_inUnit sq d ts (hsq _) hd ha).1
     (aml_score_inUnit ts).1⟩

/-- Claim C1 witness: concrete instantiation (one 950 transaction, account
age 10 days) with every hypothesis discharged. -/
theorem claim_C1_witness :
    (∀ x, 0 ≤ ratSqrt x) ∧ (0:ℤ) ≤ 10 ∧ (∀ t ∈ [okTx], 0 ≤ t.amount) ∧
    engineOutputsInUnit ratSqrt 10 [okTx] :=
  ⟨ratSqrt_nonneg, by norm_num, by simp [okTx],
   claim_C1_all_outputs_in_unit_interval ratSqrt 10 [okTx] ratSqrt_nonneg
     (by norm_num) (by simp [okTx])⟩

/-- Claim C1 counterexample: a single windowed transaction of amount
`-30000` (explicitly within the claim's scope, which includes negative
amounts) drives `credit_utilization` to `-1`, outside `[0,1]` — the code
computes `min(total/3/10000, 1.0)` with no lower clamp. -/
theorem claim_C1_counterexample :
    credit_utilization [negTx] = -1 ∧ ¬ inUnit (credit_utilization [negTx]) := by
  have h : credit_utilization [negTx] = -1 := by
    norm_num [credit_utilization, totalAmount, negTx, min_def]
  exact ⟨h, by rw [h]; norm_num [inUnit]⟩

/-- Claim C2: a scoring run is atomic.  If the commit of the three
`RiskScore` rows fails, the persistent database after the run is exactly the
database before it (in particular the entity's current fields are
unchanged), no pending record or customer update survives (the session is
rolled back), and the run surfaces the storage failure to the caller as a
re-raised exception. -/
theorem claim_C2_atomic_rollback_on_storage_failure (sq : ℚ → ℚ) (db : DB)
    (cid : String) (now : ℤ)
    (h : (db.customers.find? (fun c => c.id == cid)).isSome = true) :
    calculate_risk_scores sq db cid now false =
      ({ db := db, custUpdate := none, newRecords := [] },
        some RunError.storageFailure) := by
  obtain ⟨c, hc⟩ := Option.isSome_iff_exists.mp h
  unfold calculate_risk_scores
  rw [hc]
  rfl

/-- Claim C2 witness: a failing commit on a concrete one-customer database
leaves it untouched and reports the storage failure. -/
theorem claim_C2_witness :
    ((demoDB.customers.find? (fun c => c.id == "alice")).isSome = true) ∧
    calculate_risk_scores ratSqrt demoDB "alice" 5 false =
      ({ db := demoDB, custUpdate := none, newRecords := [] },
        some RunError.storageFailure) :=
  ⟨rfl, claim_C2_atomic_rollback_on_storage_failure ratSqrt demoDB "alice" 5 rfl⟩

/-- Claim C3 (amended): a run against a missing entity id performs no factor
extraction or aggregation, writes zero `RiskScore` rows and leaves all state
unchanged — but it does NOT surface an `EntityNotFound` condition: the code
logs the error and returns normally (`None`), so the caller sees a clean
return.  (The original claim's "surfaced to the caller" fails: see the
counterexample.) -/
theorem claim_C3_missing_entity_noop (sq : ℚ → ℚ) (db : DB) (cid : String)
    (now : ℤ) (commitOk : Bool)
    (h : db.customers.find? (fun c => c.id == cid) = none) :
    calculate_risk_scores sq db cid now commitOk =
      ({ db := db, custUpdate := none, newRecords := [] }, none) := by
  unfold calculate_risk_scores
  rw [h]

/-- Claim C3 witness: a run against an empty customer table is a no-op
returning without error. -/
theorem claim_C3_witness :
    (dbNoCustomers.customers.find? (fun c => c.id == "missing") = none) ∧
    calculate_risk_scores ratSqrt dbNoCustomers "missing" 0 true =
      ({ db := dbNoCustomers, custUpdate := none, newRecords := [] }, none) :=
  ⟨rfl, claim_C3_missing_entity_noop ratSqrt dbNoCustomers "missing" 0 true rfl⟩

/-- Claim C3 counterexample: on a concrete database without the requested
entity, the run's error component is `none` — it returns normally instead of
failing with an `EntityNotFound` condition (the engine has no such raise
path; `calculate_risk_scores` merely logs and returns), while writing
nothing and leaving the state unchanged. -/
theorem claim_C3_counterexample :
    (calculate_risk_scores ratSqrt dbNoCustomers "missing" 0 true).2 = none ∧
    (calculate_risk_scores ratSqrt dbNoCustomers "missing" 0 true).1.db = dbNoCustomers ∧
    (calculate_risk_scores ratSqrt dbNoCustomers "missing" 0 true).1.newRecords = [] :=
  ⟨rfl, rfl, rfl⟩

/-- Claim C4 (amended): for every pair of dimension scores the combined
score equals `min(0.4·credit + 0.6·aml, 1)` — clamped from above only; it
coincides with `clamp(0.4·credit + 0.6·aml, 0, 1)` whenever both dimension
scores are nonnegative (in particular on `[0,1]²`).  (The original
claim's exact `clamp(·, 0, 1)` equality for every pair fails: see the
counterexample.) -/
theorem claim_C4_combined_formula (c a : ℚ) :
    combined_score c a = min (c * 0.4 + a * 0.6) 1 ∧
    (0 ≤ c → 0 ≤ a →
      combined_score c a = max 0 (min (c * 0.4 + a * 0.6) 1)) := by
  refine ⟨rfl, fun hc ha => ?_⟩
  unfold combined_score
  exact (max_eq_right (le_min (by positivity) zero_le_one)).symm

/-- Claim C4 witness: the clamp equality at the concrete pair (0.5, 0.5). -/
theorem claim_C4_witness :
    (0 : ℚ) ≤ 0.5 ∧
    combined_score 0.5 0.5 = max 0 (min ((0.5 : ℚ) * 0.4 + 0.5 * 0.6) 1) :=
  ⟨by norm_num, (claim_C4_combined_formula 0.5 0.5).2 (by norm_num) (by norm_num)⟩

/-- Claim C4 counterexample: dimension scores actually produced by the code
(one windowed transaction of amount `-300000`, account age 365 days) give a
credit score of `-863/300` and an AML score of `0`; the combined score the
code produces is `-863/750`, whereas `clamp(0.4·credit + 0.6·aml, 0, 1)`
is `0` — so the claimed equality fails on this reachable pair. -/
theorem claim_C4_counterexample :
    combined_score (credit_score ratSqrt 365 [cxTx4]) (aml_score [cxTx4]) = -863/750 ∧
    max 0 (min (credit_score ratSqrt 365 [cxTx4] * 0.4 + aml_score [cxTx4] * 0.6) 1) = 0 := by
  have hcs : credit_score ratSqrt 365 [cxTx4] = -863/300 := by
    norm_num [credit_score, credit_payment_history, credit_utilization, totalAmount,
      account_age, transaction_frequency, amount_consistency, cxTx4, min_def, max_def]
  have hne1 : ("Acme" : String) = "Offshore Trading Co" ↔ False := by simp
  have hne2 : ("Acme" : String) = "Crypto Exchange" ↔ False := by simp
  have hne3 : ("Acme" : String) = "Casino Royale" ↔ False := by simp
  have haml : aml_score [cxTx4] = 0 := by
    norm_num [aml_score, structuring_patterns, high_risk_merchants, offshore_transactions,
      cash_equivalents, amount_frequency, time_patterns, highRiskMerchants, pyMod,
      cxTx4, min_def, List.countP_cons, hne1, hne2, hne3]
  rw [hcs, haml]
  norm_num [combined_score, min_def]

/-- Claim C5: the classifier maps a combined score `s` to CRITICAL iff
`s ≥ 0.8`, to HIGH iff `0.6 ≤ s < 0.8`, to MEDIUM iff `0.4 ≤ s < 0.6`, and
to LOW iff `s < 0.4`; the boundary values 0.8, 0.6, 0.4 map exactly to
CRITICAL, HIGH, MEDIUM. -/
theorem claim_C5_band_thresholds (s : ℚ) :
    (_determine_risk_level s = "CRITICAL" ↔ 0.8 ≤ s) ∧
    (_determine_risk_level s = "HIGH" ↔ 0.6 ≤ s ∧ s < 0.8) ∧
    (_determine_risk_level s = "MEDIUM" ↔ 0.4 ≤ s ∧ s < 0.6) ∧
    (_determine_risk_level s = "LOW" ↔ s < 0.4) ∧
    _determine_risk_level 0.8 = "CRITICAL" ∧
    _determine_risk_level 0.6 = "HIGH" ∧
    _determine_risk_level 0.4 = "MEDIUM" := by
  refine ⟨?_, ?_, ?_, ?_, by norm_num [_determine_risk_level],
    by norm_num [_determine_risk_level], by norm_num [_determine_risk_level]⟩ <;>
  · unfold _determine_risk_level
    split_ifs with h1 h2 h3 <;> simp_all <;>
      first
        | linarith
        | (intro; linarith)

/-- Claim C6: band classification is monotonic in the combined score, under
the severity order LOW < MEDIUM < HIGH < CRITICAL. -/
theorem claim_C6_band_monotone (s1 s2 : ℚ) (h : s1 ≤ s2) :
    riskLevelRank (_determine_risk_level s1) ≤ riskLevelRank (_determine_risk_level s2) := by
  unfold _determine_risk_level
  split_ifs <;> simp [riskLevelRank] <;> linarith

/-- Claim C6 witness: monotonicity at the concrete pair (0.3, 0.7). -/
theorem claim_C6_witness :
    (0.3 : ℚ) ≤ 0.7 ∧
    riskLevelRank (_determine_risk_level 0.3) ≤ riskLevelRank (_determine_risk_level 0.7) :=
  ⟨by norm_num, claim_C6_band_monotone 0.3 0.7 (by norm_num)⟩

/-- Claim C7 (amended): `amount_consistency` equals 0.5 for fewer than two
records; equals `clamp(std_dev / mean, 0, 1)` for at least two records with
POSITIVE mean; and equals 1.0 for at least two records whenever the mean is
nonpositive — i.e. zero or negative (the code tests `mean_amount > 0`, not
`mean != 0`, so a nonzero negative mean also takes the degenerate branch).
(The original "mean nonzero" reading fails: see the counterexample.) -/
theorem claim_C7_amount_consistency (sq : ℚ → ℚ) (ts : List Transaction)
    (hsq : 0 ≤ sq (varianceAmount ts)) :
    (ts.length ≤ 1 → amount_consistency sq ts = 0.5) ∧
    (1 < ts.length → 0 < meanAmount ts →
      amount_consistency sq ts =
        max 0 (min (sq (varianceAmount ts) / meanAmount ts) 1)) ∧
    (1 < ts.length → meanAmount ts ≤ 0 → amount_consistency sq ts = 1) := by
  unfold amount_consistency
  refine ⟨fun h => ?_, fun h hm => ?_, fun h hm => ?_⟩
  · rw [if_neg (by omega)]
  · rw [if_pos h, if_pos hm]
    exact (max_eq_right (le_min (div_nonneg hsq hm.le) zero_le_one)).symm
  · rw [if_pos h, if_neg (not_lt.mpr hm), min_self]

/-- Claim C7 witness: on amounts `[1, 3]` (mean 2, population variance 1)
the factor equals the clamped coefficient of variation. -/
theorem claim_C7_witness :
    0 ≤ ratSqrt (varianceAmount [consTx 1, consTx 3]) ∧
    (1 < List.length [consTx 1, consTx 3] → 0 < meanAmount [consTx 1, consTx 3] →
      amount_consistency ratSqrt [consTx 1, consTx 3] =
        max 0 (min (ratSqrt (varianceAmount [consTx 1, consTx 3]) /
          meanAmount [consTx 1, consTx 3]) 1)) :=
  ⟨ratSqrt_nonneg _,
   (claim_C7_amount_consistency ratSqrt [consTx 1, consTx 3] (ratSqrt_nonneg _)).2.1⟩

/-- Claim C7 counterexample: two records of amount `-1` have nonzero mean
`-1` and standard deviation `0`, so the claimed `clamp(std/mean, 0, 1)`
value is `0`, but the code produces `1` (its guard is `mean > 0`, not
`mean ≠ 0`). -/
theorem claim_C7_counterexample :
    amount_consistency ratSqrt [consTx (-1), consTx (-1)] = 1 ∧
    meanAmount [consTx (-1), consTx (-1)] ≠ 0 ∧
    1 < List.length [consTx (-1), consTx (-1)] ∧
    max 0 (min (ratSqrt (varianceAmount [consTx (-1), consTx (-1)]) /
      meanAmount [consTx (-1), consTx (-1)]) 1) = 0 := by
  have hm : meanAmount [consTx (-1), consTx (-1)] = -1 := by
    norm_num [meanAmount, totalAmount, consTx]
  have hv : varianceAmount [consTx (-1), consTx (-1)] = 0 := by
    rw [varianceAmount, hm]
    norm_num [consTx]
  have hs : ratSqrt 0 = 0 := by norm_num [ratSqrt]
  refine ⟨?_, by rw [hm]; norm_num, by simp, ?_⟩
  · rw [amount_consistency, if_pos (by simp), if_neg (by rw [hm]; norm_num), min_self]
  · rw [hv, hs, hm]; norm_num

/-- Claim C8: an entity with an empty activity window (and a nonnegative
account age, as holds for every entity created before the run) yields
`credit_utilization = 0`, all six AML count-based factors `0`, AML score
`0`, and the LOW band, regardless of the other (baseline) credit factors. -/
theorem claim_C8_empty_window_baseline (sq : ℚ → ℚ) (d : ℤ) (hd : 0 ≤ d) :
    emptyWindowBaseline sq d := by
  have hu : credit_utilization [] = 0 := by
    norm_num [credit_utilization, totalAmount, min_def]
  have h1 : structuring_patterns [] = 0 := by
    norm_num [structuring_patterns, min_def]
  have h2 : high_risk_merchants [] = 0 := by
    norm_num [high_risk_merchants, min_def]
  have h3 : offshore_transactions [] = 0 := by
    norm_num [offshore_transactions, min_def]
  have h4 : cash_equivalents [] = 0 := by
    norm_num [cash_equivalents, min_def]
  have h5 : amount_frequency [] = 0 := by
    norm_num [amount_frequency, min_def]
  have h6 : time_patterns [] = 0 := by
    norm_num [time_patterns, min_def]
  have haml : aml_score [] = 0 := by
    rw [aml_score, h1, h2, h3, h4, h5, h6]; norm_num [min_def]
  have hf : transaction_frequency [] = 0 := by
    norm_num [transaction_frequency, min_def]
  have hc : amount_consistency sq [] = 0.5 := by
    norm_num [amount_consistency]
  have hcs : credit_score sq d [] ≤ 27/100 := by
    unfold credit_score credit_payment_history
    rw [hu, hf, hc]
    refine le_trans (min_le_left _ _) ?_
    have ha2 := (account_age_inUnit d hd).2
    linarith
  have hcb : combined_score (credit_score sq d []) (aml_score []) ≤ 27/250 := by
    rw [haml]
    unfold combined_score
    refine le_trans (min_le_left _ _) ?_
    linarith
  refine ⟨hu, h1, h2, h3, h4, h5, h6, haml, ?_⟩
  unfold _determine_risk_level
  rw [if_neg (not_le.mpr (by linarith)), if_neg (not_le.mpr (by linarith)),
    if_neg (not_le.mpr (by linarith))]

/-- Claim C8 witness: the baseline at account age 0. -/
theorem claim_C8_witness :
    (0:ℤ) ≤ 0 ∧ emptyWindowBaseline ratSqrt 0 :=
  ⟨le_refl 0, claim_C8_empty_window_baseline ratSqrt 0 (le_refl 0)⟩

/-- Claim C9: for three windowed transactions of amounts 950, 950, 5000 with
exactly one at a denylisted merchant and exactly one offshore,
`structuring_patterns = 0.2`, `high_risk_merchants = 0.2`,
`offshore_transactions = 1/3`, and the AML dimension score equals the
fixed-weight sum of the six AML factors (the upper clamp does not bite). -/
theorem claim_C9_aml_scenario (t1 t2 t3 : Transaction)
    (h1 : t1.amount = 950) (h2 : t2.amount = 950) (h3 : t3.amount = 5000)
    (hm : [t1, t2, t3].countP (fun t => highRiskMerchants.contains t.merchant) = 1)
    (ho : [t1, t2, t3].countP (fun t => t.is_offshore) = 1) :
    amlScenario [t1, t2, t3] := by
  have hs : structuring_patterns [t1, t2, t3] = 0.2 := by
    unfold structuring_patterns
    rw [List.countP_cons, List.countP_cons, List.countP_cons, List.countP_nil]
    simp only [h1, h2, h3]
    norm_num
  have hmer : high_risk_merchants [t1, t2, t3] = 0.2 := by
    unfold high_risk_merchants
    rw [hm]
    norm_num
  have hoff : offshore_transactions [t1, t2, t3] = 1/3 := by
    unfold offshore_transactions
    rw [ho]
    norm_num [min_def]
  have hca := (cash_equivalents_inUnit [t1, t2, t3]).2
  have hfr := (amount_frequency_inUnit [t1, t2, t3]).2
  have hti := (time_patterns_inUnit [t1, t2, t3]).2
  refine ⟨hs, hmer, hoff, ?_⟩
  unfold aml_score
  rw [hs, hmer, hoff]
  rw [min_eq_left (by linarith)]

/-- Claim C9 witness: the scenario realized by three concrete transactions
(950 at `Crypto Exchange`, 950 offshore at an ordinary shop, 5000 plain). -/
theorem claim_C9_witness :
    w1.amount = 950 ∧ w2.amount = 950 ∧ w3.amount = 5000 ∧
    [w1, w2, w3].countP (fun t => highRiskMerchants.contains t.merchant) = 1 ∧
    [w1, w2, w3].countP (fun t => t.is_offshore) = 1 ∧
    amlScenario [w1, w2, w3] :=
  ⟨rfl, rfl, rfl,
   by simp [w1, w2, w3, highRiskMerchants, List.countP_cons],
   by simp [w1, w2, w3, List.countP_cons],
   claim_C9_aml_scenario w1 w2 w3 rfl rfl rfl
     (by simp [w1, w2, w3, highRiskMerchants, List.countP_cons])
     (by simp [w1, w2, w3, List.countP_cons])⟩

/-- Claim C10: the credit-dimension `payment_history` factor is the constant
0.2 — no engine input affects it — so it contributes exactly
`0.2 * 0.35 = 0.07` to every credit dimension score (inside the upper
clamp). -/
theorem claim_C10_payment_history_constant (sq : ℚ → ℚ) (d : ℤ)
    (ts : List Transaction) :
    credit_payment_history = 0.2 ∧
    credit_score sq d ts =
      min (0.07 + credit_utilization ts * 0.30 + account_age d * 0.15 +
           transaction_frequency ts * 0.10 + amount_consistency sq ts * 0.10) 1 := by
  refine ⟨rfl, ?_⟩
  unfold credit_score credit_payment_history
  norm_num

end RiskMonitor
